import Mathlib

/-!
Verification of the edge ("Arc") entity of the fiducial-marker graph
(src/Arc.cpp).  The C++ `double` fields are embedded as exact rationals
(`ℚ`); tags are embedded as value records carrying the fields Arc.cpp
reads (`id`, `hop_count`, `x`, `y`).  Side effects that register an arc
with its tags and with the owning map are outside the edge record and
are not modelled; assertion failures are modelled by `Option`.
-/

/-- Modelled from the spec: the node ("Tag") entity is external to
src/ (only Arc.cpp, its caller, is present).  Per the spec a node has a
unique integer identity, a 2-D position and a hop-count connectivity
metric — exactly the fields Arc.cpp dereferences. -/
structure Tag where
  id : Nat
  hop_count : Nat
  x : ℚ
  y : ℚ
deriving Repr, DecidableEq

/-- Modelled from the spec: `Tag__equal` lives outside src/; the spec
says two nodes are compared by identity, so it is identity equality. -/
def Tag__equal (tag1 tag2 : Tag) : Bool :=
  tag1.id == tag2.id

/-- Modelled from the spec: `Tag__less` lives outside src/; the spec
says two nodes are compared by identity, so it is identity order. -/
def Tag__less (tag1 tag2 : Tag) : Bool :=
  tag1.id < tag2.id

/-- The Arc record, with the fields assigned in Arc.cpp: `distance`,
`from_tag`, `from_twist`, `goodness`, `in_tree`, `to_tag`, `to_twist`,
`visit`. -/
structure Arc where
  distance : ℚ
  from_tag : Tag
  from_twist : ℚ
  goodness : ℚ
  in_tree : Bool
  to_tag : Tag
  to_twist : ℚ
  visit : Nat
deriving Repr, DecidableEq

/-- Stands in for the null pointer `(Tag)0` stored by `Arc__new` before
a real tag is loaded. -/
def nullTag : Tag :=
  { id := 0, hop_count := 0, x := 0, y := 0 }

/-- `Arc__new` (Arc.cpp lines 121-132): a fresh arc with sentinel
values; the allocation-name string argument only labels the memory
allocation and is dropped here. -/
def Arc__new : Arc :=
  { distance := -1
    from_tag := nullTag
    from_twist := 0
    goodness := 123456789
    in_tree := false
    to_tag := nullTag
    to_twist := 0
    visit := 0 }

/-- `Arc__create` (Arc.cpp lines 49-78): swaps the two (tag, twist)
pairs when `from_tag->id > to_tag->id`, then loads the fields of a new
arc.  The registration side effects (`Tag__arc_append`,
`Map__arc_append`) touch the collaborators, not the arc record. -/
def Arc__create (from_tag : Tag) (from_twist distance : ℚ)
    (to_tag : Tag) (to_twist goodness : ℚ) : Arc :=
  if from_tag.id > to_tag.id then
    { Arc__new with
        distance := distance
        from_tag := to_tag
        from_twist := to_twist
        goodness := goodness
        to_tag := from_tag
        to_twist := from_twist }
  else
    { Arc__new with
        distance := distance
        from_tag := from_tag
        from_twist := from_twist
        goodness := goodness
        to_tag := to_tag
        to_twist := to_twist }

/-- `Arc__equal` (Arc.cpp lines 21-24): pairwise tag equality. -/
def Arc__equal (arc1 arc2 : Arc) : Bool :=
  Tag__equal arc1.from_tag arc2.from_tag &&
    Tag__equal arc1.to_tag arc2.to_tag

/-- `Arc__less` (Arc.cpp lines 27-34): lexicographic order on
(from_tag, to_tag). -/
def Arc__less (arc1 arc2 : Arc) : Bool :=
  if Tag__less arc1.from_tag arc2.from_tag then
    true
  else if Tag__equal arc1.from_tag arc2.from_tag then
    Tag__less arc1.to_tag arc2.to_tag
  else
    false

/-- `Arc__distance_less` (Arc.cpp lines 88-104): larger distance sorts
first; on equal distances, larger minimum endpoint hop count sorts
first; otherwise not less. -/
def Arc__distance_less (arc1 arc2 : Arc) : Bool :=
  if arc1.distance > arc2.distance then
    true
  else if arc1.distance = arc2.distance then
    let arc1_lowest_hop_count :=
      min arc1.from_tag.hop_count arc1.to_tag.hop_count
    let arc2_lowest_hop_count :=
      min arc2.from_tag.hop_count arc2.to_tag.hop_count
    if arc1_lowest_hop_count > arc2_lowest_hop_count then
      true
    else
      false
  else
    false

/-- `Arc__update` (Arc.cpp lines 206-215): asserts
`from_tag->id < to_tag->id` and `distance > 0` (modelled as `none` on
assertion failure), then overwrites `from_twist`, `distance`,
`goodness`, `to_twist`. -/
def Arc__update (arc : Arc)
    (from_twist distance to_twist goodness : ℚ) : Option Arc :=
  if arc.from_tag.id < arc.to_tag.id then
    if distance > 0 then
      some { arc with
              from_twist := from_twist
              distance := distance
              goodness := goodness
              to_twist := to_twist }
    else
      none
  else
    none

/-- The quality-gated merge step of `Arc__read` (Arc.cpp lines
167-176): the XML parsing and tag lookups are abstracted into the
already-parsed attribute values and the arc found by
`Map__arc_lookup`.  When the stored goodness is strictly worse
(larger) than the incoming one, the arc is updated, its `in_tree` flag
is overwritten from the record, and `Map__arc_announce` fires
(returned Boolean `true`); otherwise the arc is returned untouched
with no announcement. -/
def Arc__read_merge (arc : Arc) (from_twist distance to_twist goodness : ℚ)
    (in_tree : Bool) : Option (Arc × Bool) :=
  if arc.goodness > goodness then
    match Arc__update arc from_twist distance to_twist goodness with
    | some arc2 => some ({ arc2 with in_tree := in_tree }, true)
    | none => none
  else
    some (arc, false)

/-- The rational value of the `pi` literal shared by `Arc__read`
(Arc.cpp line 159) and `Arc__write` (Arc.cpp line 226). -/
def pi_literal : ℚ := 3.14159265358979323846264

/-- The persisted record: the attribute set of one `<Arc .../>` tag,
with the twists in degrees as written to disk. -/
structure ArcRecord where
  from_tag_id : Nat
  from_twist : ℚ
  distance : ℚ
  to_tag_id : Nat
  to_twist : ℚ
  goodness : ℚ
  in_tree : Bool
deriving Repr, DecidableEq

/-- `Arc__write` (Arc.cpp lines 224-241): converts the twists from
radians to degrees with `180.0 / pi` and emits the attribute set.
Modelled from the spec: the `File__format` textual rendering is
outside src/ and the spec describes persistence of this attribute set
as lossless, so the record carries the formatted values exactly. -/
def Arc__write (arc : Arc) : ArcRecord :=
  let radians_to_degrees := 180 / pi_literal
  { from_tag_id := arc.from_tag.id
    from_twist := arc.from_twist * radians_to_degrees
    distance := arc.distance
    to_tag_id := arc.to_tag.id
    to_twist := arc.to_twist * radians_to_degrees
    goodness := arc.goodness
    in_tree := arc.in_tree }

/-- `Arc__read` (Arc.cpp lines 143-177) on an already-parsed record:
converts the twists from degrees to radians with `pi / 180.0` and
performs the quality-gated merge into `arc`.  Modelled from the spec:
the `File__*` attribute parsing and the `Map__tag_lookup` /
`Map__arc_lookup` collaborators are outside src/; the spec describes
the parse as lossless, and `arc` stands for the arc the lookup finds
for the record's node pair. -/
def Arc__read (record : ArcRecord) (arc : Arc) : Option (Arc × Bool) :=
  let degrees_to_radians := pi_literal / 180
  Arc__read_merge arc (record.from_twist * degrees_to_radians)
    record.distance (record.to_twist * degrees_to_radians)
    record.goodness record.in_tree

/-- The line-segment primitive handed to `SVG__line`: two endpoint
positions and a color token. -/
structure SVG_Line where
  x1 : ℚ
  y1 : ℚ
  x2 : ℚ
  y2 : ℚ
  color : String
deriving Repr, DecidableEq

/-- `Arc__svg_write` (Arc.cpp lines 185-193): one line segment between
the two tag positions, colored "red" when `in_tree` and "green"
otherwise. -/
def Arc__svg_write (arc : Arc) : SVG_Line :=
  { x1 := arc.from_tag.x
    y1 := arc.from_tag.y
    x2 := arc.to_tag.x
    y2 := arc.to_tag.y
    color := if arc.in_tree then "red" else "green" }

/-! Concrete sample objects used by witnesses. -/

/-- A sample tag with identity 1. -/
def tag1 : Tag := ⟨1, 4, 10, 20⟩

/-- A sample tag with identity 2. -/
def tag2 : Tag := ⟨2, 3, 30, 40⟩

/-- A sample tag with identity 3. -/
def tag3 : Tag := ⟨3, 5, 50, 60⟩

/-- A sample arc between `tag1` and `tag2` with distance 2 and
goodness 9. -/
def sampleArc : Arc := Arc__create tag1 1 2 tag2 (-1) 9

/-- `sampleArc` after `Arc__update` with twists 5 and 6, distance 3,
goodness 7. -/
def sampleArcUpdated : Arc :=
  { sampleArc with
      from_twist := 5
      distance := 3
      goodness := 7
      to_twist := 6 }

/-- Claim C2 fails as stated: with two tags that carry the same
identity 0, `Arc__create` neither yields `from_tag.id < to_tag.id` nor
is it invariant under swapping the two (tag, twist) argument pairs. -/
theorem Arc__create_canonical_counterexample :
    ¬ ((Arc__create ⟨0, 0, 0, 0⟩ 1 2 ⟨0, 5, 3, 3⟩ 4 6).from_tag.id <
        (Arc__create ⟨0, 0, 0, 0⟩ 1 2 ⟨0, 5, 3, 3⟩ 4 6).to_tag.id) ∧
      Arc__create ⟨0, 0, 0, 0⟩ 1 2 ⟨0, 5, 3, 3⟩ 4 6 ≠
        Arc__create ⟨0, 5, 3, 3⟩ 4 2 ⟨0, 0, 0, 0⟩ 1 6 := by
  decide

/-- Claim C2 (amended): for tags with distinct identities,
`Arc__create` stores the smaller-identity tag as `from_tag`
(so `from_tag.id < to_tag.id`), and swapping the two (tag, twist)
argument pairs yields a structurally identical arc. -/
theorem Arc__create_canonical (a : Tag) (ta d : ℚ) (b : Tag)
    (tb q : ℚ) (h : a.id ≠ b.id) :
    (Arc__create a ta d b tb q).from_tag.id <
        (Arc__create a ta d b tb q).to_tag.id ∧
      Arc__create a ta d b tb q = Arc__create b tb d a ta q := by
  unfold Arc__create
  by_cases hab : a.id > b.id
  · have h2 : ¬ b.id > a.id := Nat.lt_asymm hab
    simp only [if_pos hab, if_neg h2]
    exact ⟨hab, trivial⟩
  · have hlt : b.id > a.id :=
      Nat.lt_of_le_of_ne (Nat.not_lt.mp hab) h
    simp only [if_neg hab, if_pos hlt]
    exact ⟨hlt, trivial⟩

/-- Witness for C2 at tags 2 and 1. -/
theorem Arc__create_canonical_witness :
    (⟨2, 0, 0, 0⟩ : Tag).id ≠ (⟨1, 0, 0, 0⟩ : Tag).id ∧
      ((Arc__create ⟨2, 0, 0, 0⟩ 1 2 ⟨1, 0, 0, 0⟩ 4 6).from_tag.id <
          (Arc__create ⟨2, 0, 0, 0⟩ 1 2 ⟨1, 0, 0, 0⟩ 4 6).to_tag.id ∧
        Arc__create ⟨2, 0, 0, 0⟩ 1 2 ⟨1, 0, 0, 0⟩ 4 6 =
          Arc__create ⟨1, 0, 0, 0⟩ 4 2 ⟨2, 0, 0, 0⟩ 1 6) :=
  ⟨by decide,
   Arc__create_canonical ⟨2, 0, 0, 0⟩ 1 2 ⟨1, 0, 0, 0⟩ 4 6 (by decide)⟩

/-- Claim C3 fails as stated: `Arc__new` initializes `distance` to the
sentinel -1, and `Arc__create` stores a non-positive distance
unchecked, so not every constructed arc has `distance > 0`. -/
theorem Arc_distance_positive_counterexample :
    Arc__new.distance = -1 ∧
      ¬ (0 < (Arc__create ⟨1, 0, 0, 0⟩ 0 (-5) ⟨2, 0, 0, 0⟩ 0 0).distance) := by
  decide

/-- Claim C3 (amended): positivity of `distance` is enforced only by
`Arc__update`, whose assertion rejects non-positive distances; every
arc produced by a successful `Arc__update` has `distance > 0`, and
`Arc__create` yields a positive distance whenever its distance
argument is positive.  Construction alone does not establish the
invariant (`Arc__new` stores the sentinel -1). -/
theorem Arc_distance_positive_enforced :
    (∀ (arc : Arc) (ft d tt g : ℚ) (arc2 : Arc),
        Arc__update arc ft d tt g = some arc2 → 0 < arc2.distance) ∧
      (∀ (a : Tag) (ta d : ℚ) (b : Tag) (tb q : ℚ),
        0 < d → 0 < (Arc__create a ta d b tb q).distance) := by
  constructor
  · intro arc ft d tt g arc2 h
    unfold Arc__update at h
    split_ifs at h with h1 h2
    cases h
    simpa using h2
  · intro a ta d b tb q hd
    unfold Arc__create
    split_ifs <;> simpa using hd

/-- Witness for C3 (amended) on `sampleArc`. -/
theorem Arc_distance_positive_enforced_witness :
    0 < sampleArcUpdated.distance ∧
      0 < (Arc__create ⟨1, 0, 0, 0⟩ 0 3 ⟨2, 0, 0, 0⟩ 0 0).distance :=
  ⟨Arc_distance_positive_enforced.1 sampleArc 5 3 6 7 sampleArcUpdated
      (by decide),
   Arc_distance_positive_enforced.2 ⟨1, 0, 0, 0⟩ 0 3 ⟨2, 0, 0, 0⟩ 0 0
      (by norm_num)⟩

/-- Claim C4: `Arc__distance_less arc1 arc2` is true exactly when
`arc1.distance > arc2.distance`, or the distances are equal and
`arc1`'s minimum endpoint hop count exceeds `arc2`'s; there is no
further tie-break. -/
theorem Arc__distance_less_spec (arc1 arc2 : Arc) :
    Arc__distance_less arc1 arc2 = true ↔
      (arc1.distance > arc2.distance ∨
        (arc1.distance = arc2.distance ∧
          min arc1.from_tag.hop_count arc1.to_tag.hop_count >
            min arc2.from_tag.hop_count arc2.to_tag.hop_count)) := by
  unfold Arc__distance_less
  split_ifs with h1 h2 <;> simp_all

/-- Characterization of `Arc__less` in terms of tag identities. -/
lemma Arc__less_iff (arc1 arc2 : Arc) :
    Arc__less arc1 arc2 = true ↔
      (arc1.from_tag.id < arc2.from_tag.id ∨
        (arc1.from_tag.id = arc2.from_tag.id ∧
          arc1.to_tag.id < arc2.to_tag.id)) := by
  simp only [Arc__less, Tag__less, Tag__equal]
  split_ifs with h1 h2 <;> simp_all

/-- Characterization of `Arc__equal` in terms of tag identities. -/
lemma Arc__equal_iff (arc1 arc2 : Arc) :
    Arc__equal arc1 arc2 = true ↔
      (arc1.from_tag.id = arc2.from_tag.id ∧
        arc1.to_tag.id = arc2.to_tag.id) := by
  simp [Arc__equal, Tag__equal]

/-- Claim C1: the merge step of `Arc__read` applies `Arc__update` only
when the incoming goodness is strictly smaller (better) than the
stored one; whenever the merge completes, the stored goodness becomes
`min` of the old goodness and the offered one, and when the offered
goodness is not strictly better the arc is returned with no field
changed (and no announcement). -/
theorem Arc__read_merge_quality_gate :
    (∀ (arc : Arc) (ft d tt g : ℚ) (it : Bool) (r : Arc × Bool),
        Arc__read_merge arc ft d tt g it = some r →
          r.1.goodness = min arc.goodness g) ∧
      (∀ (arc : Arc) (ft d tt g : ℚ) (it : Bool),
        arc.goodness ≤ g →
          Arc__read_merge arc ft d tt g it = some (arc, false)) := by
  constructor
  · intro arc ft d tt g it r h
    unfold Arc__read_merge Arc__update at h
    split_ifs at h with h1 h2 h3
    · simp only [Option.some.injEq] at h
      subst h
      simp [min_eq_right (le_of_lt h1)]
    · simp only [Option.some.injEq] at h
      subst h
      simp [min_eq_left (not_lt.mp h1)]
  · intro arc ft d tt g it hle
    unfold Arc__read_merge
    rw [if_neg (not_lt.mpr hle)]

/-- Witness for C1 on `sampleArc` (stored goodness 9): a merging read
with goodness 7 stores `min 9 7`, and one with goodness 9 leaves the
arc untouched. -/
theorem Arc__read_merge_quality_gate_witness :
    (({ sampleArcUpdated with in_tree := true }, true) : Arc × Bool).1.goodness =
        min sampleArc.goodness 7 ∧
      Arc__read_merge sampleArc 0 1 0 9 false = some (sampleArc, false) :=
  ⟨Arc__read_merge_quality_gate.1 sampleArc 5 3 6 7 true
      ({ sampleArcUpdated with in_tree := true }, true) (by decide),
   Arc__read_merge_quality_gate.2 sampleArc 0 1 0 9 false (by decide)⟩

/-- Claim C10: when a persisted record is merged into an existing arc
and its goodness is not strictly better, the arc — in particular its
`in_tree` flag — is left unchanged even if the record's In_Tree
attribute differs, and no announcement is made; when the gate passes
and the merge completes, `in_tree` is overwritten from the record and
the announcement is issued. -/
theorem Arc__read_merge_in_tree_frame :
    (∀ (arc : Arc) (ft d tt g : ℚ) (it : Bool),
        ¬ (g < arc.goodness) →
          Arc__read_merge arc ft d tt g it = some (arc, false)) ∧
      (∀ (arc : Arc) (ft d tt g : ℚ) (it : Bool) (r : Arc × Bool),
        g < arc.goodness → Arc__read_merge arc ft d tt g it = some r →
          r.1.in_tree = it ∧ r.2 = true) := by
  constructor
  · intro arc ft d tt g it hge
    unfold Arc__read_merge
    rw [if_neg hge]
  · intro arc ft d tt g it r hlt h
    unfold Arc__read_merge Arc__update at h
    split_ifs at h with h1 h2 h3
    · simp only [Option.some.injEq] at h
      subst h
      exact ⟨rfl, rfl⟩
    · exact absurd hlt h1

/-- Witness for C10 on `sampleArc` (stored goodness 9, `in_tree`
false): a record with goodness 10 and In_Tree set leaves the arc's
`in_tree` false with no announcement; a record with goodness 7 and
In_Tree set overwrites `in_tree` and announces. -/
theorem Arc__read_merge_in_tree_frame_witness :
    Arc__read_merge sampleArc 5 3 6 10 true = some (sampleArc, false) ∧
      ((({ sampleArcUpdated with in_tree := true }, true) : Arc × Bool).1.in_tree = true ∧
        (({ sampleArcUpdated with in_tree := true }, true) : Arc × Bool).2 = true) :=
  ⟨Arc__read_merge_in_tree_frame.1 sampleArc 5 3 6 10 true (by decide),
   Arc__read_merge_in_tree_frame.2 sampleArc 5 3 6 7 true
      ({ sampleArcUpdated with in_tree := true }, true) (by decide) (by decide)⟩

/-- Claim C6: `Arc__less` is the lexicographic order on endpoint
identities (from-tag identities first, then to-tag identities on
ties), and it is a strict total order: irreflexive, asymmetric,
transitive, and total over arcs with distinct identity pairs; by the
characterization it depends on no measurement value. -/
theorem Arc__less_strict_total_order :
    (∀ arc1 arc2 : Arc,
        Arc__less arc1 arc2 = true ↔
          (arc1.from_tag.id < arc2.from_tag.id ∨
            (arc1.from_tag.id = arc2.from_tag.id ∧
              arc1.to_tag.id < arc2.to_tag.id))) ∧
      (∀ arc : Arc, Arc__less arc arc = false) ∧
      (∀ arc1 arc2 : Arc,
        Arc__less arc1 arc2 = true → Arc__less arc2 arc1 = false) ∧
      (∀ arc1 arc2 arc3 : Arc,
        Arc__less arc1 arc2 = true → Arc__less arc2 arc3 = true →
          Arc__less arc1 arc3 = true) ∧
      (∀ arc1 arc2 : Arc,
        (arc1.from_tag.id, arc1.to_tag.id) ≠
            (arc2.from_tag.id, arc2.to_tag.id) →
          Arc__less arc1 arc2 = true ∨ Arc__less arc2 arc1 = true) := by
  refine ⟨Arc__less_iff, ?_, ?_, ?_, ?_⟩
  · intro arc
    rw [Bool.eq_false_iff, ne_eq, Arc__less_iff]
    omega
  · intro arc1 arc2 h
    rw [Arc__less_iff] at h
    rw [Bool.eq_false_iff, ne_eq, Arc__less_iff]
    omega
  · intro arc1 arc2 arc3 h h'
    rw [Arc__less_iff] at h h' ⊢
    omega
  · intro arc1 arc2 hne
    rw [ne_eq, Prod.mk.injEq] at hne
    rw [Arc__less_iff, Arc__less_iff]
    omega

/-- Witness for C6: asymmetry, transitivity and totality applied to
concrete arcs over `tag1`, `tag2`, `tag3`. -/
theorem Arc__less_strict_total_order_witness :
    Arc__less (Arc__create tag1 0 1 tag3 0 0) (Arc__create tag1 0 1 tag2 0 0) = false ∧
      Arc__less (Arc__create tag1 0 1 tag2 0 0) (Arc__create tag2 0 1 tag3 0 0) = true ∧
      (Arc__less (Arc__create tag1 0 1 tag2 0 0) (Arc__create tag1 0 1 tag3 0 0) = true ∨
        Arc__less (Arc__create tag1 0 1 tag3 0 0) (Arc__create tag1 0 1 tag2 0 0) = true) :=
  ⟨Arc__less_strict_total_order.2.2.1
      (Arc__create tag1 0 1 tag2 0 0) (Arc__create tag1 0 1 tag3 0 0) (by decide),
   Arc__less_strict_total_order.2.2.2.1
      (Arc__create tag1 0 1 tag2 0 0) (Arc__create tag1 0 1 tag3 0 0)
      (Arc__create tag2 0 1 tag3 0 0) (by decide) (by decide),
   Arc__less_strict_total_order.2.2.2.2
      (Arc__create tag1 0 1 tag2 0 0) (Arc__create tag1 0 1 tag3 0 0) (by decide)⟩

/-- Claim C7: `Arc__equal` holds exactly when the endpoint identities
match pairwise ((from, from) and (to, to)); it is reflexive,
symmetric, transitive, and independent of the argument order used at
construction. -/
theorem Arc__equal_equivalence :
    (∀ arc1 arc2 : Arc,
        Arc__equal arc1 arc2 = true ↔
          (arc1.from_tag.id = arc2.from_tag.id ∧
            arc1.to_tag.id = arc2.to_tag.id)) ∧
      (∀ arc : Arc, Arc__equal arc arc = true) ∧
      (∀ arc1 arc2 : Arc,
        Arc__equal arc1 arc2 = true → Arc__equal arc2 arc1 = true) ∧
      (∀ arc1 arc2 arc3 : Arc,
        Arc__equal arc1 arc2 = true → Arc__equal arc2 arc3 = true →
          Arc__equal arc1 arc3 = true) ∧
      (∀ (a : Tag) (ta d : ℚ) (b : Tag) (tb q : ℚ),
        Arc__equal (Arc__create a ta d b tb q) (Arc__create b tb d a ta q) = true) := by
  refine ⟨Arc__equal_iff, ?_, ?_, ?_, ?_⟩
  · intro arc
    rw [Arc__equal_iff]
    exact ⟨rfl, rfl⟩
  · intro arc1 arc2 h
    rw [Arc__equal_iff] at h ⊢
    omega
  · intro arc1 arc2 arc3 h h'
    rw [Arc__equal_iff] at h h' ⊢
    omega
  · intro a ta d b tb q
    rw [Arc__equal_iff]
    unfold Arc__create
    split_ifs with h1 h2 <;> simp_all <;> omega

/-- Witness for C7: symmetry and transitivity applied to concrete
arcs sharing endpoints but differing in every measurement field. -/
theorem Arc__equal_equivalence_witness :
    Arc__equal (Arc__create tag1 5 2 tag2 6 7) (Arc__create tag1 0 1 tag2 0 0) = true ∧
      Arc__equal (Arc__create tag1 0 1 tag2 0 0) (Arc__create tag2 333 4 tag1 222 9) = true :=
  ⟨Arc__equal_equivalence.2.2.1
      (Arc__create tag1 0 1 tag2 0 0) (Arc__create tag1 5 2 tag2 6 7) (by decide),
   Arc__equal_equivalence.2.2.2.1
      (Arc__create tag1 0 1 tag2 0 0) (Arc__create tag1 5 2 tag2 6 7)
      (Arc__create tag2 333 4 tag1 222 9) (by decide) (by decide)⟩

/-- Claim C8: `Arc__update` overwrites exactly the two twists, the
distance and the goodness (all other fields of the arc record are
preserved), and its assertions fail exactly when the incoming distance
is non-positive or the endpoint ordering has degraded to
`from_tag.id ≥ to_tag.id`; under the preconditions `0 < distance` and
`from_tag.id < to_tag.id` the error branch is unreachable. -/
theorem Arc__update_spec :
    (∀ (arc : Arc) (ft d tt g : ℚ),
        arc.from_tag.id < arc.to_tag.id → 0 < d →
          Arc__update arc ft d tt g =
            some { arc with
                    from_twist := ft
                    distance := d
                    goodness := g
                    to_twist := tt }) ∧
      (∀ (arc : Arc) (ft d tt g : ℚ),
        d ≤ 0 ∨ arc.to_tag.id ≤ arc.from_tag.id →
          Arc__update arc ft d tt g = none) := by
  constructor
  · intro arc ft d tt g h1 h2
    unfold Arc__update
    rw [if_pos h1, if_pos h2]
  · intro arc ft d tt g h
    unfold Arc__update
    rcases h with h | h
    · split_ifs with h1 h2
      · exact absurd h2 (not_lt.mpr h)
      · rfl
      · rfl
    · rw [if_neg (Nat.not_lt.mpr h)]

/-- Witness for C8 on `sampleArc`: a positive-distance update succeeds
and yields exactly `sampleArcUpdated`; a non-positive distance is
rejected. -/
theorem Arc__update_spec_witness :
    Arc__update sampleArc 5 3 6 7 = some sampleArcUpdated ∧
      Arc__update sampleArc 5 (-3) 6 7 = none :=
  ⟨Arc__update_spec.1 sampleArc 5 3 6 7 (by decide) (by norm_num),
   Arc__update_spec.2 sampleArc 5 (-3) 6 7 (Or.inl (by norm_num))⟩

/-- Claim C9: `Arc__svg_write` emits one straight segment between the
two endpoint positions whose color is a two-valued function of
`in_tree` alone ("red" for members, "green" otherwise); arcs agreeing
on `in_tree` and endpoint positions render identically whatever their
other fields. -/
theorem Arc__svg_write_spec :
    (∀ arc : Arc,
        Arc__svg_write arc =
          { x1 := arc.from_tag.x
            y1 := arc.from_tag.y
            x2 := arc.to_tag.x
            y2 := arc.to_tag.y
            color := if arc.in_tree then "red" else "green" }) ∧
      (∀ arc1 arc2 : Arc,
        arc1.in_tree = arc2.in_tree →
          arc1.from_tag.x = arc2.from_tag.x →
          arc1.from_tag.y = arc2.from_tag.y →
          arc1.to_tag.x = arc2.to_tag.x →
          arc1.to_tag.y = arc2.to_tag.y →
          Arc__svg_write arc1 = Arc__svg_write arc2) := by
  constructor
  · intro arc
    rfl
  · intro arc1 arc2 h1 h2 h3 h4 h5
    unfold Arc__svg_write
    rw [h1, h2, h3, h4, h5]

/-- Witness for C9: two arcs over the same endpoints differing in
every measurement field render the same segment. -/
theorem Arc__svg_write_spec_witness :
    Arc__svg_write (Arc__create tag1 0 1 tag2 0 0) =
      Arc__svg_write (Arc__create tag1 5 2 tag2 6 7) :=
  Arc__svg_write_spec.2 (Arc__create tag1 0 1 tag2 0 0)
    (Arc__create tag1 5 2 tag2 6 7)
    (by decide) (by decide) (by decide) (by decide) (by decide)

/-- The degree/radian conversion round trip cancels exactly because
both directions share the same `pi` literal. -/
lemma twist_conv_cancel (x : ℚ) :
    x * (180 / pi_literal) * (pi_literal / 180) = x := by
  have h : pi_literal ≠ 0 := by norm_num [pi_literal]
  field_simp

/-- Claim C5: merging back the record produced by writing an arc
reproduces the arc's distance and quality exactly and each twist value
within 1e-9 radians (here exactly, since both conversion directions
share one `pi` literal), twists being persisted in degrees
(`degrees = radians * 180/pi`) and converted back to radians on
load. -/
theorem Arc__write_read_round_trip :
    ∀ (e arc0 : Arc) (r : Arc × Bool),
      e.goodness < arc0.goodness →
      Arc__read (Arc__write e) arc0 = some r →
        r.1.distance = e.distance ∧ r.1.goodness = e.goodness ∧
        |r.1.from_twist - e.from_twist| ≤ 1 / 1000000000 ∧
        |r.1.to_twist - e.to_twist| ≤ 1 / 1000000000 := by
  intro e arc0 r hg h
  unfold Arc__read Arc__write Arc__read_merge Arc__update at h
  simp only at h
  split_ifs at h with h1 h2 h3
  · simp only [Option.some.injEq] at h
    subst h
    refine ⟨rfl, rfl, ?_, ?_⟩ <;>
      simp [twist_conv_cancel]
  · exact absurd hg h1

/-- Witness for C5: writing `sampleArcUpdated` (goodness 7) and
reading the record back against `sampleArc` (goodness 9) reproduces
`sampleArcUpdated` exactly. -/
theorem Arc__write_read_round_trip_witness :
    Arc__read (Arc__write sampleArcUpdated) sampleArc =
        some (sampleArcUpdated, true) ∧
      (sampleArcUpdated.distance = sampleArcUpdated.distance ∧
        sampleArcUpdated.goodness = sampleArcUpdated.goodness ∧
        |sampleArcUpdated.from_twist - sampleArcUpdated.from_twist| ≤ 1 / 1000000000 ∧
        |sampleArcUpdated.to_twist - sampleArcUpdated.to_twist| ≤ 1 / 1000000000) := by
  have hread : Arc__read (Arc__write sampleArcUpdated) sampleArc =
      some (sampleArcUpdated, true) := by
    unfold Arc__read Arc__write
    dsimp only
    rw [twist_conv_cancel, twist_conv_cancel]
    decide
  exact ⟨hread,
    Arc__write_read_round_trip sampleArcUpdated sampleArc
      (sampleArcUpdated, true) (by decide) hread⟩
